import Mathlib

/-!
Verification of the health-check aggregator of the ISS Data Analytics
System ingestion service (`src/services/ingestion/app/main.py`).

The service exposes a `/healthz` endpoint (`health_check`), an admin
endpoint forcing unhealthy status (`simulate_health_failure`), and an
admin endpoint restoring normal operation (`recover_health`).  A
process-wide boolean `_force_unhealthy` is the only mutable state.

We embed the handler bodies as pure Lean functions.  Host metrics are
modelled as rational numbers; the metric sample delivered by `psutil`
is an `Except String Sample`, the `.error` case standing for the
`except Exception` branch of the Python code.  Python's `int(...)`
truncation and `round(x, 2)` banker's rounding are modelled explicitly
on rationals.
-/

namespace Ingestion

/-- Status values the service reports. -/
inductive Status where
  | healthy
  | degraded
  | unhealthy
deriving DecidableEq, Repr

/-- A metric sample as obtained from `psutil` inside the `try` block:
`cpu_percent`, `virtual_memory().percent`, `disk_usage("/")` (used and
total bytes) and `boot_time()` (seconds since the epoch). -/
structure Sample where
  cpu_percent : ℚ
  memory_percent : ℚ
  disk_used : ℚ
  disk_total : ℚ
  boot_time : ℚ
deriving DecidableEq, Repr

/-- The `system` sub-object of the full report. -/
structure SystemInfo where
  cpu_percent : ℚ
  memory_percent : ℚ
  disk_percent : ℚ
deriving DecidableEq, Repr

/-- The JSON object returned by `health_check`.  Fields that the
minimal fallback report omits are `Option`s (`none` = key absent). -/
structure HealthReport where
  status : Status
  service : String
  timestamp : String
  uptime_seconds : Option ℤ
  system : Option SystemInfo
  environment : Option String
  version : Option String
  reason : Option String
  error : Option String
deriving DecidableEq, Repr

/-- Python `int(q)` on a real-valued duration: truncation toward zero. -/
def pyInt (q : ℚ) : ℤ :=
  if q < 0 then ⌈q⌉ else ⌊q⌋

/-- Round a rational to the nearest integer, ties to even
(Python's `round` at the value level). -/
def roundHalfEven (q : ℚ) : ℤ :=
  let f : ℤ := ⌊q⌋
  let r : ℚ := q - (f : ℚ)
  if r < 1/2 then f
  else if 1/2 < r then f + 1
  else if Even f then f else f + 1

/-- Python `round(x, 2)`. -/
def round2 (x : ℚ) : ℚ :=
  (roundHalfEven (x * 100) : ℚ) / 100

/-- The body of the `/healthz` handler `health_check`.

* `sample` — result of the metric-sampling calls (`.error e` when any
  of them raises, carrying `str(e)`);
* `now` — `datetime.datetime.now()` as seconds since the epoch;
* `timestamp` — the preformatted UTC ISO string;
* `env_var` — `os.environ.get("ENVIRONMENT")`;
* `force_unhealthy` — the value of the `_force_unhealthy` global. -/
def health_check (sample : Except String Sample) (now : ℚ)
    (timestamp : String) (env_var : Option String)
    (force_unhealthy : Bool) : HealthReport :=
  match sample with
  | .ok s =>
      let base : HealthReport :=
        { status := .healthy
          service := "ingestion-service"
          timestamp := timestamp
          uptime_seconds := some (pyInt (now - s.boot_time))
          system := some
            { cpu_percent := round2 s.cpu_percent
              memory_percent := round2 s.memory_percent
              disk_percent := round2 (s.disk_used / s.disk_total * 100) }
          environment := some (env_var.getD "unknown")
          version := some "0.1.0"
          reason := none
          error := none }
      if 90 < s.cpu_percent ∨ 95 < s.memory_percent then
        { base with status := .degraded }
      else if force_unhealthy then
        { base with status := .unhealthy
                    reason := some "Manually triggered for testing" }
      else base
  | .error e =>
      { status := .healthy
        service := "ingestion-service"
        timestamp := timestamp
        uptime_seconds := none
        system := none
        environment := none
        version := none
        reason := none
        error := some ("Extended health check failed: " ++ e) }

/-- Initial value of the `_force_unhealthy` global at process start. -/
def init_force_unhealthy : Bool := false

/-- The `/admin/health/fail` handler: new flag value plus the
acknowledgement `(message, duration)`. -/
def simulate_health_failure (_flag : Bool) : Bool × (String × String) :=
  (true, ("Health check will fail for the next few checks", "60 seconds"))

/-- The `/admin/health/recover` handler: new flag value plus message. -/
def recover_health (_flag : Bool) : Bool × String :=
  (false, "Health check restored to normal operation")

/-- The operations of the service that could touch the flag. -/
inductive Op where
  | force
  | recover
  | health
deriving DecidableEq, Repr

/-- Effect of each operation on the `_force_unhealthy` flag.
`health_check` only reads the global, so its effect is the identity. -/
def step (flag : Bool) : Op → Bool
  | .force => (simulate_health_failure flag).1
  | .recover => (recover_health flag).1
  | .health => flag

/-- Run a sequence of operations from a given flag state. -/
def runOps (flag : Bool) : List Op → Bool
  | [] => flag
  | op :: rest => runOps (step flag op) rest

/-! ### Helper lemmas -/

/-- If the truncated duration is of a nonnegative rational, it is a
nonnegative integer. -/
theorem pyInt_nonneg (q : ℚ) (h : 0 ≤ q) : 0 ≤ pyInt q := by
  unfold pyInt
  rw [if_neg (not_lt.mpr h)]
  exact Int.le_floor.mpr (by exact_mod_cast h)

/-- On a successful sample, the report's `uptime_seconds` is the
truncated difference between `now` and the boot time, in every
status branch. -/
theorem health_check_ok_uptime (s : Sample) (now : ℚ) (ts : String)
    (env : Option String) (flag : Bool) :
    (health_check (.ok s) now ts env flag).uptime_seconds
      = some (pyInt (now - s.boot_time)) := by
  by_cases h : 90 < s.cpu_percent ∨ 95 < s.memory_percent
  · simp [health_check, h]
  · cases flag <;> simp [health_check, h]

/-- With both monitored metrics in bounds and the override flag clear,
the status is `healthy`. -/
theorem status_healthy_of_in_bounds (s : Sample) (now : ℚ) (ts : String)
    (env : Option String) (h1 : s.cpu_percent ≤ 90)
    (h2 : s.memory_percent ≤ 95) :
    (health_check (.ok s) now ts env false).status = Status.healthy := by
  have h : ¬ (90 < s.cpu_percent ∨ 95 < s.memory_percent) := by
    push_neg
    exact ⟨h1, h2⟩
  simp [health_check, h]

/-! ### Claims -/

/-- C1 counterexample: with the sample
`cpu = 10, memory = 20, disk_used = 85, disk_total = 100` the report's
disk utilization is `85 > 80`, yet with the override flag clear the
status is `healthy`, not `degraded`: the code never consults the disk
percentage when determining the status. -/
theorem C1_counterexample :
    (health_check (.ok ⟨10, 20, 85, 100, 0⟩) 100 "t" none false).system.map
        SystemInfo.disk_percent = some 85 ∧
    (85 : ℚ) > 80 ∧
    (health_check (.ok ⟨10, 20, 85, 100, 0⟩) 100 "t" none false).status
      = Status.healthy := by
  refine ⟨?_, by norm_num, ?_⟩
  · have h : ¬ ((90 : ℚ) < 10 ∨ (95 : ℚ) < 20) := by norm_num
    norm_num [health_check, h, round2, roundHalfEven, Int.fract]
  · exact status_healthy_of_in_bounds ⟨10, 20, 85, 100, 0⟩ 100 "t" none
      (by norm_num) (by norm_num)

/-- C1 (amended): a sample with `cpu_percent > 90` or
`memory_percent > 95` yields status `degraded`, regardless of the
override flag; the disk percentage plays no role in the status. -/
theorem C1_degraded_of_cpu_or_memory (s : Sample) (now : ℚ) (ts : String)
    (env : Option String) (flag : Bool)
    (h : 90 < s.cpu_percent ∨ 95 < s.memory_percent) :
    (health_check (.ok s) now ts env flag).status = Status.degraded := by
  simp [health_check, h]

/-- Witness for C1: the amended theorem at `cpu = 95`. -/
theorem C1_witness :
    (health_check (.ok ⟨95, 20, 30, 100, 0⟩) 100 "t" none true).status
      = Status.degraded :=
  C1_degraded_of_cpu_or_memory ⟨95, 20, 30, 100, 0⟩ 100 "t" none true
    (Or.inl (by norm_num))

/-- C2: with `cpu_percent ≤ 90`, `memory_percent ≤ 95`,
`disk_percent ≤ 80` and the override flag clear, the status is
`healthy`. -/
theorem C2_healthy_in_bounds (s : Sample) (now : ℚ) (ts : String)
    (env : Option String) (h1 : s.cpu_percent ≤ 90)
    (h2 : s.memory_percent ≤ 95)
    (h3 : s.disk_used / s.disk_total * 100 ≤ 80) :
    (health_check (.ok s) now ts env false).status = Status.healthy :=
  status_healthy_of_in_bounds s now ts env h1 h2

/-- Witness for C2 at `cpu = 10, memory = 20, disk = 30`. -/
theorem C2_witness :
    (health_check (.ok ⟨10, 20, 30, 100, 0⟩) 100 "t" none false).status
      = Status.healthy :=
  C2_healthy_in_bounds ⟨10, 20, 30, 100, 0⟩ 100 "t" none
    (by norm_num) (by norm_num) (by norm_num)

/-- C3: when no degraded threshold fires and the override flag is set,
the status is `unhealthy` and the `reason` field holds a non-empty
string. -/
theorem C3_override_unhealthy (s : Sample) (now : ℚ) (ts : String)
    (env : Option String) (h1 : s.cpu_percent ≤ 90)
    (h2 : s.memory_percent ≤ 95) :
    (health_check (.ok s) now ts env true).status = Status.unhealthy ∧
    ∃ r, (health_check (.ok s) now ts env true).reason = some r ∧ r ≠ "" := by
  have h : ¬ (90 < s.cpu_percent ∨ 95 < s.memory_percent) := by
    push_neg
    exact ⟨h1, h2⟩
  refine ⟨by simp [health_check, h], "Manually triggered for testing",
    by simp [health_check, h], by decide⟩

/-- Witness for C3 at `cpu = 10, memory = 20`, flag set. -/
theorem C3_witness :
    (health_check (.ok ⟨10, 20, 30, 100, 0⟩) 100 "t" none true).status
      = Status.unhealthy ∧
    ∃ r, (health_check (.ok ⟨10, 20, 30, 100, 0⟩) 100 "t" none true).reason
      = some r ∧ r ≠ "" :=
  C3_override_unhealthy ⟨10, 20, 30, 100, 0⟩ 100 "t" none
    (by norm_num) (by norm_num)

/-- C4: `health_check` is total over every sampling outcome — the
embedding is a function defined on all of `Except String Sample` — and
when sampling fails with any exception, it returns the minimal report
with status `healthy`, the service name, the timestamp, and an `error`
field carrying the failure description. -/
theorem C4_fallback_report (e : String) (now : ℚ) (ts : String)
    (env : Option String) (flag : Bool) :
    (health_check (.error e) now ts env flag).status = Status.healthy ∧
    (health_check (.error e) now ts env flag).service
      = "ingestion-service" ∧
    (health_check (.error e) now ts env flag).timestamp = ts ∧
    (health_check (.error e) now ts env flag).error
      = some ("Extended health check failed: " ++ e) := by
  refine ⟨rfl, rfl, rfl, rfl⟩

/-- C5: the override flag starts clear, `simulate_health_failure` is
the only operation setting it and `recover_health` the only one
clearing it, `health_check` leaves it unchanged, and — although the
`simulate_health_failure` acknowledgement advertises a duration of
"60 seconds" — no operation resets it: any run of operations that
avoids `recover` keeps a set flag set. -/
theorem C5_flag_lifecycle (ops : List Op) (hno : Op.recover ∉ ops) :
    init_force_unhealthy = false ∧
    (∀ f, (simulate_health_failure f).1 = true) ∧
    (∀ f, (recover_health f).1 = false) ∧
    (∀ f, step f Op.health = f) ∧
    (simulate_health_failure init_force_unhealthy).2.2 = "60 seconds" ∧
    runOps true ops = true := by
  refine ⟨rfl, fun f => rfl, fun f => rfl, fun f => rfl, rfl, ?_⟩
  induction ops with
  | nil => rfl
  | cons op rest ih =>
      have hop : op ≠ Op.recover := fun h => hno (h ▸ List.mem_cons_self op rest)
      have hrest : Op.recover ∉ rest := fun h => hno (List.mem_cons_of_mem op h)
      cases op with
      | force => exact ih hrest
      | recover => exact absurd rfl hop
      | health => exact ih hrest

/-- Witness for C5: a run consisting of a force followed by a health
check keeps the flag set. -/
theorem C5_witness :
    Ingestion.runOps true [Op.force, Op.health] = true :=
  (C5_flag_lifecycle [Op.force, Op.health] (by decide)).2.2.2.2.2

/-- C6: `recover_health` clears the flag from any state, doing it
twice is the same as doing it once, and a subsequent `health_check`
on an in-bounds sample under the resulting flag reports `healthy`. -/
theorem C6_recover_idempotent (f : Bool) (s : Sample) (now : ℚ)
    (ts : String) (env : Option String) (h1 : s.cpu_percent ≤ 90)
    (h2 : s.memory_percent ≤ 95)
    (h3 : s.disk_used / s.disk_total * 100 ≤ 80) :
    (recover_health f).1 = false ∧
    (recover_health (recover_health f).1).1 = (recover_health f).1 ∧
    (health_check (.ok s) now ts env (recover_health f).1).status
      = Status.healthy :=
  ⟨rfl, rfl, status_healthy_of_in_bounds s now ts env h1 h2⟩

/-- Witness for C6: recover from a forced flag, then a health check at
`cpu = 10, memory = 20, disk = 30`. -/
theorem C6_witness :
    (recover_health true).1 = false ∧
    (recover_health (recover_health true).1).1 = (recover_health true).1 ∧
    (health_check (.ok ⟨10, 20, 30, 100, 0⟩) 100 "t" none
        (recover_health true).1).status = Status.healthy :=
  C6_recover_idempotent true ⟨10, 20, 30, 100, 0⟩ 100 "t" none
    (by norm_num) (by norm_num) (by norm_num)

/-- C7: the `status` field depends only on the metric sample and the
override flag: two calls observing the same sample and the same flag
value, at different times, with different timestamps and environment
values, produce the same status. -/
theorem C7_status_deterministic (sample : Except String Sample)
    (flag : Bool) (now1 now2 : ℚ) (ts1 ts2 : String)
    (env1 env2 : Option String) :
    (health_check sample now1 ts1 env1 flag).status
      = (health_check sample now2 ts2 env2 flag).status := by
  cases sample with
  | error e => rfl
  | ok s =>
      by_cases h : 90 < s.cpu_percent ∨ 95 < s.memory_percent
      · simp [health_check, h]
      · cases flag <;> simp [health_check, h]

/-- C8: in every report, `reason` is absent unless the status is
`unhealthy`. -/
theorem C8_reason_only_when_unhealthy (sample : Except String Sample)
    (now : ℚ) (ts : String) (env : Option String) (flag : Bool) :
    (health_check sample now ts env flag).reason = none ∨
    (health_check sample now ts env flag).status = Status.unhealthy := by
  cases sample with
  | error e => exact Or.inl rfl
  | ok s =>
      by_cases h : 90 < s.cpu_percent ∨ 95 < s.memory_percent
      · exact Or.inl (by simp [health_check, h])
      · cases flag with
        | false => exact Or.inl (by simp [health_check, h])
        | true => exact Or.inr (by simp [health_check, h])

/-- C9: when the boot time is not in the future, `uptime_seconds` is
present, is an integer number of seconds, and is nonnegative. -/
theorem C9_uptime_nonneg (s : Sample) (now : ℚ) (ts : String)
    (env : Option String) (flag : Bool) (h : s.boot_time ≤ now) :
    ∃ u : ℤ, (health_check (.ok s) now ts env flag).uptime_seconds
      = some u ∧ 0 ≤ u :=
  ⟨pyInt (now - s.boot_time), health_check_ok_uptime s now ts env flag,
    pyInt_nonneg (now - s.boot_time) (by linarith)⟩

/-- Witness for C9 at boot time `0`, current time `100`. -/
theorem C9_witness :
    ∃ u : ℤ, (health_check (.ok ⟨10, 20, 30, 100, 0⟩) 100 "t" none
      false).uptime_seconds = some u ∧ 0 ≤ u :=
  C9_uptime_nonneg ⟨10, 20, 30, 100, 0⟩ 100 "t" none false (by norm_num)

/-- C10: on the sampling-failure path the minimal report has status
`healthy` even with the override flag set, and it carries no
`uptime_seconds`, `system`, `environment` or `version` field. -/
theorem C10_minimal_report (e : String) (now : ℚ) (ts : String)
    (env : Option String) :
    (health_check (.error e) now ts env true).status = Status.healthy ∧
    (health_check (.error e) now ts env true).uptime_seconds = none ∧
    (health_check (.error e) now ts env true).system = none ∧
    (health_check (.error e) now ts env true).environment = none ∧
    (health_check (.error e) now ts env true).version = none :=
  ⟨rfl, rfl, rfl, rfl, rfl⟩

end Ingestion
